import Mathlib

/-!
Shallow embedding of the AIGC Vision studio (a browser-based visual-generation
app). Sources embedded here:

* `types.ts`            — data model (StylePreset, GeneratedImage, BrandTone,
                          GenerationConfig, AppState)
* `StyleSelector.tsx`   — the STYLES catalog
* `services/geminiService.ts` — enhancePrompt, suggestCreativePrompt,
                          generateImage (request building and response parsing)
* `App.tsx`             — the session orchestrator (handleGenerate)

External model calls are modelled by passing the outcome of the call
(a thrown error, or a response value) as an explicit argument; all
functions are pure and executable.  TypeScript strings are Lean `String`;
the TS string-union types `AspectRatio` and `BrandTone` are erased to
strings at runtime, so service-level functions that `switch` over them
(with a `default:` branch) take plain strings, while the app-level
`toneModifiers` record (exhaustively keyed by `BrandTone`) uses an
inductive enumeration.
-/

/-- Model of the JavaScript `String.prototype.trim()` used by the source
(whitespace stripped from both ends).  Implemented over the character
list so that it evaluates in the kernel. -/
def jsTrim (s : String) : String :=
  String.mk (((s.data.dropWhile Char.isWhitespace).reverse.dropWhile Char.isWhitespace).reverse)

/-- JavaScript truthiness of a `string | null | undefined` value:
`null`/`undefined` and the empty string are falsy. -/
def optTruthy : Option String → Bool
  | none => false
  | some t => t != ""

/-! ## Data model (`types.ts`) -/

/-- `types.ts`: enum AppState. -/
inductive AppState
  | IDLE
  | GENERATING
  | SUCCESS
  | ERROR
deriving DecidableEq

/-- `types.ts`: BrandTone string union, as an enumeration. -/
inductive BrandTone
  | default
  | minimalist
  | luxury
  | energetic
  | corporate
  | playful
deriving DecidableEq

/-- `types.ts`: interface StylePreset. -/
structure StylePreset where
  id : String
  name : String
  description : String
  promptModifier : String
  thumbnail : String
deriving DecidableEq

/-- `types.ts`: interface GeneratedImage. -/
structure GeneratedImage where
  id : String
  data : String
  prompt : String
  timestamp : Nat
  aspectRatio : String
deriving DecidableEq

/-- `types.ts`: interface GenerationConfig.  `negativePrompt` and
`referenceImage` are optional in TS. -/
structure GenerationConfig where
  prompt : String
  negativePrompt : Option String
  aspectRatio : String
  styleId : String
  referenceImage : Option String
deriving DecidableEq

/-! ## Style catalog (`StyleSelector.tsx`) -/

/-- `StyleSelector.tsx`: the STYLES catalog (verbatim data). -/
def STYLES : List StylePreset :=
  [ { id := "none"
    , name := "Natural / Raw"
    , description := "No specific style filter."
    , promptModifier := "Photorealistic, natural lighting, high fidelity"
    , thumbnail := "https://picsum.photos/id/28/100/100" }
  , { id := "cinematic"
    , name := "Cinematic"
    , description := "Movie-like lighting and composition."
    , promptModifier := "Cinematic lighting, 8k resolution, photorealistic, depth of field, anamorphic lens flare, movie still"
    , thumbnail := "https://picsum.photos/id/435/100/100" }
  , { id := "cyberpunk"
    , name := "Cyberpunk"
    , description := "Neon lights and futuristic tech."
    , promptModifier := "Cyberpunk 2077 style, neon lights, futuristic, high tech low life, vibrant colors, volumetric fog, synthetic"
    , thumbnail := "https://picsum.photos/id/532/100/100" }
  , { id := "watercolor"
    , name := "Watercolor"
    , description := "Soft and artistic."
    , promptModifier := "Watercolor painting, soft edges, artistic, wet on wet, pastel colors, paper texture, masterpiece"
    , thumbnail := "https://picsum.photos/id/104/100/100" }
  , { id := "3d-render"
    , name := "3D Render"
    , description := "Clean Octane render style."
    , promptModifier := "3D render, Octane render, unreal engine 5, ray tracing, clean composition, plastic and glass materials, studio lighting"
    , thumbnail := "https://picsum.photos/id/8/100/100" }
  , { id := "anime"
    , name := "Anime"
    , description := "Japanese animation style."
    , promptModifier := "Anime style, Studio Ghibli inspired, cel shaded, vibrant, detailed background, 2D animation"
    , thumbnail := "https://picsum.photos/id/453/100/100" } ]

/-! ## Prompt composition (`App.tsx`, handleGenerate lines 140-159) -/

/-- `App.tsx`: the `toneModifiers` record inside handleGenerate
(`Record<BrandTone, string>`, exhaustively keyed). -/
def toneModifiers : BrandTone → String
  | .default => ""
  | .minimalist => "minimalist aesthetic, clean lines, uncluttered, negative space, neutral color palette, refined"
  | .luxury => "luxury aesthetic, premium textures, gold and marble accents, dramatic rim lighting, sophisticated, high-end"
  | .energetic => "high energy, dynamic motion, vibrant saturated colors, bold contrast, motion blur, impactful"
  | .corporate => "professional corporate style, trustworthy blue and grey tones, structured composition, bright even lighting"
  | .playful => "playful aesthetic, soft rounded shapes, pastel colors, warm lighting, whimsical, inviting"

/-- `App.tsx` handleGenerate steps 1-3: the style modifier is looked up in
STYLES (empty when absent or when the entry is the "none" preset), the tone
modifier comes from `toneModifiers`, and the final prompt is
`[styleMod, toneMod, prompt].filter(p => p.trim() !== "").join(". ")`. -/
def composeFinalPrompt (selectedStyleId : String) (brandTone : BrandTone) (prompt : String) : String :=
  let style := STYLES.find? (fun s => s.id == selectedStyleId)
  let styleMod := match style with
    | some st => if st.id ≠ "none" then st.promptModifier else ""
    | none => ""
  let toneMod := toneModifiers brandTone
  let parts := [styleMod, toneMod, prompt].filter (fun p => jsTrim p != "")
  String.intercalate ". " parts

/-- Spec-claim rendering of the Prompt Composer contract, as the claim words
it: join with period separator the list [style fragment (only if the styleId
is in the catalog and differs from "none"), tone fragment (only if the tone
differs from default), raw prompt], omitting every fragment that is EMPTY. -/
def composeClaimSpec (selectedStyleId : String) (brandTone : BrandTone) (rawUserPrompt : String) : String :=
  let styleFragment :=
    if selectedStyleId ≠ "none" ∧ STYLES.any (fun s => s.id == selectedStyleId) then
      ((STYLES.find? (fun s => s.id == selectedStyleId)).map (fun s => s.promptModifier)).getD ""
    else ""
  let toneFragment := if brandTone = .default then "" else toneModifiers brandTone
  String.intercalate ". " ([styleFragment, toneFragment, rawUserPrompt].filter (fun f => f != ""))

/-- Spec rendering of the amended Prompt Composer contract: as
`composeClaimSpec` but omitting every fragment that is empty or
whitespace-only (blank). -/
def composeBlankSpec (selectedStyleId : String) (brandTone : BrandTone) (rawUserPrompt : String) : String :=
  let styleFragment :=
    if selectedStyleId ≠ "none" ∧ STYLES.any (fun s => s.id == selectedStyleId) then
      ((STYLES.find? (fun s => s.id == selectedStyleId)).map (fun s => s.promptModifier)).getD ""
    else ""
  let toneFragment := if brandTone = .default then "" else toneModifiers brandTone
  String.intercalate ". " ([styleFragment, toneFragment, rawUserPrompt].filter (fun f => jsTrim f != ""))

/-! ## Prompt Enhancement Client (`geminiService.ts`, enhancePrompt) -/

/-- Outcome of a call to the external text-generation capability:
either the call threw, or it responded with an optional text field. -/
inductive TextOutcome
  | threw
  | responded (text : Option String)
deriving DecidableEq

/-- `geminiService.ts` enhancePrompt: the `systemInstruction` constant. -/
def enhanceSystemInstruction : String :=
  "You are an expert visual prompt engineer for generative AI."

/-- `geminiService.ts` enhancePrompt: the `toneInstruction` switch over the
tone (a string at runtime), with the default branch covering the
default tone and any unlisted value. -/
def toneInstructionOf : String → String
  | "minimalist" => "Brand Tone: \x27Minimalist\x27. Focus on clean lines, negative space, desaturated palettes, soft diffused lighting, and simplicity."
  | "luxury" => "Brand Tone: \x27Luxury\x27. Emphasize elegance, premium materials (gold, marble, silk), dramatic rim lighting, depth of field, and sophistication."
  | "energetic" => "Brand Tone: \x27Energetic\x27. Use dynamic composition, motion blur, vibrant neon or saturated colors, high contrast, and action-oriented angles."
  | "corporate" => "Brand Tone: \x27Corporate\x27. Ensure a professional, trustworthy look with blue/grey tones, structured symmetrical composition, and bright, even studio lighting."
  | "playful" => "Brand Tone: \x27Playful\x27. Use soft rounded shapes, pastel or bright primary colors, warm high-key lighting, and a whimsical or inviting atmosphere."
  | _ => "Brand Tone: High-quality professional photography with balanced composition."

/-- `geminiService.ts` enhancePrompt: the `compositionInstruction` switch
over the aspect ratio. -/
def compositionInstructionOf : String → String
  | "16:9" => "Composition: Wide cinematic shot, rule of thirds, emphasize horizontal scale. Describe a wide-angle view."
  | "9:16" => "Composition: Vertical portrait framing, tall subject matter, emphasize height and vertical leading lines. Describe a tall, vertical view."
  | "1:1" => "Composition: Centralized symmetrical framing, balanced square composition, focus on the subject."
  | "4:3" => "Composition: Classic photography framing, balanced distribution."
  | "3:4" => "Composition: Classic portrait photography framing."
  | _ => "Composition: Balanced standard photography framing."

/-- `geminiService.ts` enhancePrompt: the `ratioKeywords` switch over the
aspect ratio. -/
def ratioKeywordsOf : String → String
  | "16:9" => "wide shot, cinematic composition, panoramic view, 16:9 aspect ratio"
  | "9:16" => "vertical shot, portrait mode, tall composition, 9:16 aspect ratio"
  | "1:1" => "square composition, symmetrical framing, centered subject"
  | "4:3" => "4:3 standard photography aspect ratio"
  | "3:4" => "3:4 standard portrait aspect ratio"
  | _ => "balanced composition"

/-- Text of the enhancement template before the tone instruction. -/
def enhChunk1 : String :=
  enhanceSystemInstruction ++ " \n      \n      TASK: Rewrite the user\x27s request into a highly detailed image generation prompt (approx 100-150 words).\n\n      STEPS:\n      1. ANALYZE the \"User Scenario\" and apply specific technical rules:\n         - IF Product Photography: Use \"studio lighting, softbox, 100mm macro lens, 8k textures, neutral background\".\n         - IF UI/UX Design: Use \"clean vector style, flat lay, Behance trending, modern typography, Figma style\".\n         - IF Character Design: Use \"full body shot, expressive pose, octane render, subsurface scattering, rim lighting\".\n         - IF Architecture: Use \"wide angle lens, architectural digest style, golden hour lighting, hyper-realistic materials\".\n         - IF Landscape/Nature: Use \"atmospheric perspective, volumetric lighting, photorealistic, intricate details\".\n      \n      2. APPLY Brand Tone: "

/-- Text of the enhancement template between the tone instruction and the
composition instruction. -/
def enhChunk2 : String := "\n      \n      3. APPLY Composition: "

/-- Text of the enhancement template between the composition instruction and
the mandatory ratio keywords. -/
def enhChunk3 : String := "\n      \n      4. MANDATORY: You MUST include these exact composition keywords in the final prompt text: \""

/-- Text of the enhancement template between the ratio keywords and the raw
user prompt. -/
def enhChunk4 : String := "\".\n      \n      5. Output ONLY the raw prompt text. Do not use quotes, markdown, or explanations.\n      \n      User request: \""

/-- Closing quote of the enhancement template. -/
def enhChunk5 : String := "\""

/-- `geminiService.ts` enhancePrompt: the `contents` template submitted to
the text model, assembled from the template text, the tone instruction, the
composition instruction, the ratio keywords and the raw prompt. -/
def buildEnhanceContents (rawPrompt tone ratio : String) : String :=
  enhChunk1 ++ toneInstructionOf tone ++ enhChunk2 ++ compositionInstructionOf ratio
    ++ enhChunk3 ++ ratioKeywordsOf ratio ++ enhChunk4 ++ rawPrompt ++ enhChunk5

/-- `geminiService.ts` enhancePrompt, return value: on a response the code
evaluates `response.text?.trim() || rawPrompt`; the catch branch returns
`rawPrompt`. -/
def enhancePromptResult (outcome : TextOutcome) (rawPrompt : String) : String :=
  match outcome with
  | .threw => rawPrompt
  | .responded none => rawPrompt
  | .responded (some t) => if jsTrim t = "" then rawPrompt else jsTrim t

/-! ## Creative Suggestion Client (`geminiService.ts`, suggestCreativePrompt) -/

/-- `geminiService.ts` suggestCreativePrompt: the `context` switch over the
tone, with the default branch covering the default tone and any unlisted
value. -/
def suggestContextOf : String → String
  | "minimalist" => "Generate a prompt for a clean, minimalist design object or architectural detail. Focus on white, grey, and soft light."
  | "luxury" => "Generate a prompt for a high-end fashion editorial or luxury product shot (watch, perfume, car). Focus on gold, black, and dramatic light."
  | "energetic" => "Generate a prompt for a dynamic sports event or cyberpunk scene with motion blur and neon colors."
  | "corporate" => "Generate a prompt for a modern office concept or abstract tech visualization suitable for a business presentation."
  | "playful" => "Generate a prompt for a cute 3D character or colorful landscape in a style like Pixar or Nintendo."
  | _ => "Generate a vivid, highly detailed visual prompt (sci-fi, fantasy, or cinematic photography)."

/-- `geminiService.ts` suggestCreativePrompt: the `ratioHint` conditional. -/
def suggestRatioHintOf (ratio : String) : String :=
  if ratio = "9:16" then "The subject MUST fit a vertical frame (tall)."
  else if ratio = "16:9" then "The subject MUST fit a wide panoramic frame."
  else ""

/-- `geminiService.ts` suggestCreativePrompt: the `contents` template
submitted to the text model. -/
def buildSuggestContents (tone ratio : String) : String :=
  "Task: " ++ suggestContextOf tone ++ " \n      Constraint: " ++ suggestRatioHintOf ratio
    ++ " \n      Output ONLY the image prompt text. Keep it descriptive but under 50 words."

/-- `geminiService.ts` suggestCreativePrompt: the fallback returned when the
response carries no usable text (the `||` branch). -/
def floatingCityFallback : String :=
  "A futuristic city floating in the clouds at golden hour, hyper-realistic, 8k resolution."

/-- `geminiService.ts` suggestCreativePrompt: the fallback returned from the
catch branch. -/
def cyberpunkDetectiveFallback : String :=
  "A cyberpunk detective standing in neon rain, digital art style, high contrast."

/-- `geminiService.ts` suggestCreativePrompt, return value: the tone and
ratio parameters shape only the submitted instruction, never the result
mapping, which evaluates `response.text?.trim() || <floating-city>` and
returns the cyberpunk-detective string from the catch branch. -/
def suggestCreativePromptResult (tone ratio : String) (outcome : TextOutcome) : String :=
  match outcome with
  | .threw => cyberpunkDetectiveFallback
  | .responded none => floatingCityFallback
  | .responded (some t) => if jsTrim t = "" then floatingCityFallback else jsTrim t

/-- Verbatim substring containment, stated over the character lists. -/
def strContains (s pat : String) : Prop := pat.data <:+: s.data

/-! ## Image Generation Client (`geminiService.ts`, generateImage) -/

/-- JavaScript `\w` (ASCII word character), as used by the data-URL header
regex. -/
def isWordChar (c : Char) : Bool := c.isAlpha || c.isDigit || c = '_'

/-- Matches a literal character sequence at the head of a list, returning
the remainder on success. -/
def dropLit : List Char → List Char → Option (List Char)
  | [], l => some l
  | _ :: _, [] => none
  | p :: ps, c :: cs => if c = p then dropLit ps cs else none

/-- `geminiService.ts` generateImage:
`config.referenceImage.replace(/^data:image\/\w+;base64,/, "")` over the
character list.  The regex is anchored, `\w+` is greedy and, because a
semicolon is not a word character, greedy matching followed by the literal
";base64," is equivalent to the backtracking regex. -/
def stripChars (l : List Char) : List Char :=
  match dropLit ("data:image/".data) l with
  | none => l
  | some rest =>
    match rest.takeWhile isWordChar with
    | [] => l
    | _ :: _ =>
      match dropLit (";base64,".data) (rest.dropWhile isWordChar) with
      | none => l
      | some payload => payload

/-- `geminiService.ts` generateImage: removal of the data-URL header from
the reference image, as a String function. -/
def stripDataHeader (s : String) : String := String.mk (stripChars s.data)

/-- A part of the generation request: an inline image (payload plus declared
mime type) or a text part. -/
inductive ReqPart
  | inlineImage (data : String) (mimeType : String)
  | text (content : String)
deriving DecidableEq

/-- The assembled image-generation request: ordered content parts plus the
structural `imageConfig.aspectRatio` option. -/
structure ImageRequest where
  parts : List ReqPart
  aspectRatio : String
deriving DecidableEq

/-- `geminiService.ts` generateImage: the `fullPrompt` template
`"{prompt}. {negativePrompt ? `Exclude: {negativePrompt}.` : ""}"`
(`negativePrompt` falsy means absent or empty). -/
def buildFullPrompt (config : GenerationConfig) : String :=
  config.prompt ++ ". " ++
    (match config.negativePrompt with
      | some np => if np ≠ "" then "Exclude: " ++ np ++ "." else ""
      | none => "")

/-- `geminiService.ts` generateImage, request assembly: when a reference
image is present (truthy) it is header-stripped and pushed as an inline
image part declared as "image/png", before the text part; the aspect ratio
is forwarded as the structural generation option. -/
def buildImageRequest (config : GenerationConfig) : ImageRequest :=
  let imageParts : List ReqPart :=
    match config.referenceImage with
    | some ref => if ref ≠ "" then [.inlineImage (stripDataHeader ref) "image/png"] else []
    | none => []
  { parts := imageParts ++ [.text (buildFullPrompt config)]
  , aspectRatio := config.aspectRatio }

/-- Response shape: an inline data payload. -/
structure InlineData where
  data : String
deriving DecidableEq

/-- Response shape: a content part with an optional inline payload. -/
structure RespPart where
  inlineData : Option InlineData
deriving DecidableEq

/-- Response shape: a candidate content with an optional parts list. -/
structure RespContent where
  parts : Option (List RespPart)
deriving DecidableEq

/-- Response shape: one returned candidate. -/
structure RespCandidate where
  content : RespContent
deriving DecidableEq

/-- Response shape: the generation response with an optional candidates
list. -/
structure GenResponse where
  candidates : Option (List RespCandidate)
deriving DecidableEq

/-- How a generateImage call fails: the explicit
"No image data found in response." throw, or the JavaScript TypeError
raised by reading `.content` of `candidates[0]` when the candidates array
is empty (an empty array is truthy, so the guard does not protect the
index). -/
inductive GenError
  | noImageData
  | typeErrorUndefined
deriving DecidableEq

/-- `geminiService.ts` generateImage, response loop: the first part whose
`inlineData` exists and whose `data` is truthy (non-empty). -/
def findImagePart : List RespPart → Option String
  | [] => none
  | p :: ps =>
    match p.inlineData with
    | some d => if d.data ≠ "" then some d.data else findImagePart ps
    | none => findImagePart ps

/-- `geminiService.ts` generateImage, response handling: the guard
`response.candidates && response.candidates[0].content.parts`, the scan for
the first inline payload (wrapped in the fixed data-URL prefix), and the
"No image data found in response." throw. -/
def extractImage (resp : GenResponse) : Except GenError String :=
  match resp.candidates with
  | none => .error .noImageData
  | some [] => .error .typeErrorUndefined
  | some (c :: _) =>
    match c.content.parts with
    | none => .error .noImageData
    | some ps =>
      match findImagePart ps with
      | some data => .ok ("data:image/png;base64," ++ data)
      | none => .error .noImageData

/-- The image payload a response part contributes to the scan, if any
(present inline data with a truthy payload). -/
def imgPayload (p : RespPart) : Option String :=
  match p.inlineData with
  | some d => if d.data ≠ "" then some d.data else none
  | none => none

/-! ## Session Orchestrator (`App.tsx`, handleGenerate) -/

/-- `App.tsx` handleGenerate: the user-facing message set on a generation
failure. -/
def generationFailedMessage : String :=
  "Image generation failed. Please check your prompt or try again."

/-- `App.tsx`: the component state driving the generation flow.  Pure
presentation state (sidebar visibility, text-operation spinner, the
just-refined toast) is not modelled; `handleGenerate` touches none of the
fields below before its guard. -/
structure AppSt where
  prompt : String
  negativePrompt : String
  aspectRatio : String
  selectedStyleId : String
  brandTone : BrandTone
  referenceImage : Option String
  appState : AppState
  errorMessage : Option String
  history : List GeneratedImage
  currentImage : Option GeneratedImage
deriving DecidableEq

/-- `App.tsx` handleGenerate guard: `!prompt.trim() && !referenceImage`
(the reference image is falsy when null or empty). -/
def generateGuardFails (s : AppSt) : Bool :=
  (jsTrim s.prompt == "") && !(optTruthy s.referenceImage)

/-- `App.tsx` handleGenerate: `referenceImage: referenceImage || undefined`
in the config literal. -/
def refForConfig (s : AppSt) : Option String :=
  if optTruthy s.referenceImage then s.referenceImage else none

/-- `App.tsx` handleGenerate: the GenerationConfig assembled for the
request (final composed prompt, negative prompt, aspect ratio, style id,
optional reference image). -/
def buildGenerationConfig (s : AppSt) : GenerationConfig :=
  { prompt := composeFinalPrompt s.selectedStyleId s.brandTone s.prompt
  , negativePrompt := some s.negativePrompt
  , aspectRatio := s.aspectRatio
  , styleId := s.selectedStyleId
  , referenceImage := refForConfig s }

/-- The full request pipeline of one generate action: the orchestrator
builds a GenerationConfig and the Image Generation Client turns it into the
submitted request. -/
def generateRequestOf (s : AppSt) : ImageRequest :=
  buildImageRequest (buildGenerationConfig s)

/-- `App.tsx` handleGenerate, success branch: the GeneratedImage committed
on success.  `crypto.randomUUID()` and `Date.now()` are the inputs `newId`
and `now`; the stored prompt is the user-visible one, not the composed
one. -/
def mkGeneratedImage (newId : String) (b64 : String) (s : AppSt) (now : Nat) : GeneratedImage :=
  { id := newId, data := b64, prompt := s.prompt, timestamp := now, aspectRatio := s.aspectRatio }

/-- `App.tsx` handleGenerate, from `setAppState(AppState.GENERATING)`
through the try/catch (the state just before the `finally` block runs).
The external call result is the `outcome` argument: `.ok b64` when
`await generateImage(config)` returned a payload, `.error ()` when it
threw.  On success the new image is prepended to the history and becomes
current; on failure the error message is set. -/
def handleGenerateBody (s : AppSt) (outcome : Except Unit String) (newId : String) (now : Nat) : AppSt :=
  let s1 : AppSt := { s with appState := .GENERATING, errorMessage := none }
  match outcome with
  | .ok b64 =>
    let newImage := mkGeneratedImage newId b64 s now
    { s1 with history := newImage :: s1.history
            , currentImage := some newImage
            , appState := .SUCCESS }
  | .error _ =>
    { s1 with appState := .ERROR, errorMessage := some generationFailedMessage }

/-- `App.tsx` handleGenerate, complete action.  The `finally` block tests
`if (errorMessage)`, but `errorMessage` there is the state variable captured
by the render closure that invoked the handler — its value BEFORE the
call — not the value just written by `setErrorMessage`; React commits the
last `setAppState` write, so the `finally` overwrites the state set in the
try/catch. -/
def handleGenerate (s : AppSt) (outcome : Except Unit String) (newId : String) (now : Nat) : AppSt :=
  if generateGuardFails s then s
  else
    let s2 := handleGenerateBody s outcome newId now
    if optTruthy s.errorMessage then { s2 with appState := .ERROR }
    else { s2 with appState := .IDLE }

/-! ## Helper lemmas -/

theorem dropLit_append (lit rest : List Char) : dropLit lit (lit ++ rest) = some rest := by
  induction lit with
  | nil => rfl
  | cons c cs ih => simp [dropLit, ih]

theorem dropLit_ne_head {p c : Char} (ps cs : List Char) (h : c ≠ p) :
    dropLit (p :: ps) (c :: cs) = none := by
  simp [dropLit, h]

theorem takeWhile_word_semi (sub t : List Char) (h : ∀ c ∈ sub, isWordChar c = true) :
    (sub ++ ';' :: t).takeWhile isWordChar = sub := by
  induction sub with
  | nil =>
    have hsemi : isWordChar ';' = false := by decide
    simp [List.takeWhile_cons, hsemi]
  | cons c cs ih =>
    have hc : isWordChar c = true := h c (by simp)
    simp [List.takeWhile_cons, hc, ih (fun x hx => h x (by simp [hx]))]

theorem dropWhile_word_semi (sub t : List Char) (h : ∀ c ∈ sub, isWordChar c = true) :
    (sub ++ ';' :: t).dropWhile isWordChar = ';' :: t := by
  induction sub with
  | nil =>
    have hsemi : isWordChar ';' = false := by decide
    simp [List.dropWhile_cons, hsemi]
  | cons c cs ih =>
    have hc : isWordChar c = true := h c (by simp)
    simp [List.dropWhile_cons, hc, ih (fun x hx => h x (by simp [hx]))]

theorem stripChars_header (sub payload : List Char) (hne : sub ≠ [])
    (h : ∀ c ∈ sub, isWordChar c = true) :
    stripChars ("data:image/".data ++ sub ++ ";base64,".data ++ payload) = payload := by
  obtain ⟨c, cs, rfl⟩ := List.exists_cons_of_ne_nil hne
  have h1 : ((c :: cs) ++ ';' :: ("base64,".data ++ payload)).takeWhile isWordChar = c :: cs :=
    takeWhile_word_semi _ _ h
  have h2 : ((c :: cs) ++ ';' :: ("base64,".data ++ payload)).dropWhile isWordChar
      = ';' :: ("base64,".data ++ payload) := dropWhile_word_semi _ _ h
  have h3 : dropLit (";base64,".data) (';' :: ("base64,".data ++ payload)) = some payload := by
    have hb : (";base64,").data = ';' :: "base64,".data := rfl
    rw [hb]
    exact dropLit_append _ _
  have hsplit : "data:image/".data ++ (c :: cs) ++ ";base64,".data ++ payload
      = "data:image/".data ++ ((c :: cs) ++ ';' :: ("base64,".data ++ payload)) := by
    simp [List.append_assoc]
  unfold stripChars
  rw [hsplit, dropLit_append]
  simp only [h1, h2, h3]

theorem dropWhile_append_of_exists_not (p : Char → Bool) (a b : List Char)
    (h : ∃ c ∈ a, p c = false) :
    (a ++ b).dropWhile p = a.dropWhile p ++ b := by
  induction a with
  | nil =>
    rcases h with ⟨c, hc, _⟩
    cases hc
  | cons x xs ih =>
    by_cases hx : p x
    · have h' : ∃ c ∈ xs, p c = false := by
        rcases h with ⟨c, hc, hpc⟩
        rcases List.mem_cons.mp hc with rfl | hcx
        · rw [hx] at hpc
          cases hpc
        · exact ⟨c, hcx, hpc⟩
      simp [List.dropWhile_cons, hx, ih h']
    · simp [List.dropWhile_cons, hx]

theorem exists_head_dropWhile (p : Char → Bool) (a : List Char)
    (h : ∃ c ∈ a, p c = false) :
    ∃ y ys, a.dropWhile p = y :: ys ∧ p y = false ∧ y ∈ a := by
  induction a with
  | nil =>
    rcases h with ⟨c, hc, _⟩
    cases hc
  | cons x xs ih =>
    by_cases hx : p x
    · have h' : ∃ c ∈ xs, p c = false := by
        rcases h with ⟨c, hc, hpc⟩
        rcases List.mem_cons.mp hc with rfl | hcx
        · rw [hx] at hpc
          cases hpc
        · exact ⟨c, hcx, hpc⟩
      rcases ih h' with ⟨y, ys, hd, hpy, hmem⟩
      exact ⟨y, ys, by simp [List.dropWhile_cons, hx, hd], hpy, List.mem_cons_of_mem _ hmem⟩
    · exact ⟨x, xs, by simp [List.dropWhile_cons, hx], by simpa using hx, List.mem_cons_self _ _⟩

theorem findImagePart_eq_head_filterMap (ps : List RespPart) :
    findImagePart ps = (ps.filterMap imgPayload).head? := by
  induction ps with
  | nil => rfl
  | cons p ps ih =>
    rcases h : p.inlineData with _ | d
    · simp [findImagePart, imgPayload, h, ih]
    · by_cases hd : d.data = "" <;> simp [findImagePart, imgPayload, h, hd, ih]

theorem styles_any_eq_find_isSome (sid : String) :
    STYLES.any (fun s => s.id == sid) = (STYLES.find? (fun s => s.id == sid)).isSome := by
  rw [Bool.eq_iff_iff, List.any_eq_true, List.find?_isSome]

theorem composeFinalPrompt_eq_blankSpec (sid : String) (tone : BrandTone) (raw : String) :
    composeFinalPrompt sid tone raw = composeBlankSpec sid tone raw := by
  unfold composeFinalPrompt composeBlankSpec
  have htone : (if tone = .default then "" else toneModifiers tone) = toneModifiers tone := by
    cases tone <;> rfl
  rw [htone]
  rcases hfind : STYLES.find? (fun s => s.id == sid) with _ | st
  · have hany : STYLES.any (fun s => s.id == sid) = false := by
      rw [styles_any_eq_find_isSome, hfind]; rfl
    simp [hfind, hany]
  · have hid : st.id = sid := by
      have := List.find?_some hfind
      simpa using this
    have hany : STYLES.any (fun s => s.id == sid) = true := by
      rw [styles_any_eq_find_isSome, hfind]; rfl
    by_cases hnone : sid = "none"
    · subst hnone
      simp [hfind, hid, hany]
    · simp [hfind, hid, hany, hnone]

/-! ## Claim theorems -/

/-- C3 counterexample: the claim joins every non-EMPTY fragment, but the code
filters on the TRIMMED fragment, so a whitespace-only raw prompt (reachable:
the generation guard also accepts a blank prompt when a reference image is
present) is dropped by the code while the claim keeps it.  At
(styleId = "cinematic", tone = default, rawUserPrompt = " ") the two
disagree. -/
theorem C3_compose_cex :
    composeFinalPrompt "cinematic" BrandTone.default " " ≠
      composeClaimSpec "cinematic" BrandTone.default " " := by
  decide

/-- C3 (amended): for every (rawUserPrompt, selectedStyleId, brandTone) the
composer output equals the join-with-period-separator of [style fragment
(only if the styleId is in the catalog and is not "none"), tone fragment
(only if the tone is not default), rawUserPrompt] with every fragment that is
empty OR whitespace-only omitted; unknown styleIds contribute no style
fragment.  Since only non-blank fragments are joined, the result never has
leading, trailing, or doubled separators when any fragment is blank. -/
theorem C3_compose_amended (sid : String) (tone : BrandTone) (raw : String) :
    composeFinalPrompt sid tone raw = composeBlankSpec sid tone raw :=
  composeFinalPrompt_eq_blankSpec sid tone raw

/-- C6: for every brand tone crossed with every aspect ratio — the 5 named
tones times the 5 named ratios, the default tone, and any unlisted tone or
ratio string — the instruction assembled by the Prompt Enhancement Client
contains that tone's instruction text verbatim and that ratio's mandatory
keyword string verbatim. -/
theorem C6_instruction_contains (raw tone ratio : String) :
    strContains (buildEnhanceContents raw tone ratio) (toneInstructionOf tone) ∧
      strContains (buildEnhanceContents raw tone ratio) (ratioKeywordsOf ratio) := by
  constructor
  · exact ⟨enhChunk1.data,
      (enhChunk2 ++ compositionInstructionOf ratio ++ enhChunk3 ++ ratioKeywordsOf ratio
        ++ enhChunk4 ++ raw ++ enhChunk5).data,
      by simp [buildEnhanceContents, strContains, String.data_append]⟩
  · exact ⟨(enhChunk1 ++ toneInstructionOf tone ++ enhChunk2 ++ compositionInstructionOf ratio
        ++ enhChunk3).data,
      (enhChunk4 ++ raw ++ enhChunk5).data,
      by simp [buildEnhanceContents, strContains, String.data_append]⟩

/-- C7 counterexample: the claim routes a present, non-empty response text to
the trimmed-text branch, but the code tests the TRIMMED text for truthiness,
so a whitespace-only response (" ") falls back to the raw prompt instead of
returning the trimmed text "". -/
theorem C7_enhance_fallback_cex :
    enhancePromptResult (.responded (some " ")) "a cat" = "a cat" ∧
      (" " : String) ≠ "" ∧ jsTrim " " = "" ∧ ("a cat" : String) ≠ jsTrim " " := by
  decide

/-- C7 (amended): for every rawPrompt, if the external text-generation call
throws, or returns a missing, empty, or whitespace-only text, the Prompt
Enhancement Client returns exactly the original rawPrompt unchanged;
otherwise it returns the trimmed response text. -/
theorem C7_enhance_fallback_amended (raw t : String) :
    enhancePromptResult .threw raw = raw ∧
      enhancePromptResult (.responded none) raw = raw ∧
      enhancePromptResult (.responded (some t)) raw =
        (if jsTrim t = "" then raw else jsTrim t) :=
  ⟨rfl, rfl, rfl⟩

/-- C8 counterexample: the claim routes any non-empty response text to the
trimmed-text branch, but the code tests the TRIMMED text for truthiness, so
a whitespace-only response (" ") yields the floating-city fallback instead
of the trimmed text "". -/
theorem C8_suggest_fallback_cex :
    suggestCreativePromptResult "default" "1:1" (.responded (some " ")) = floatingCityFallback ∧
      (" " : String) ≠ "" ∧ floatingCityFallback ≠ jsTrim " " := by
  decide

/-- C8 (amended): for every tone and ratio, the Creative Suggestion Client
returns the trimmed response text when the external call yields a text that
is non-blank (non-empty after trimming); when the call succeeds but the text
is missing, empty, or whitespace-only it returns the fixed floating-city
fallback; when the call throws it returns the distinct fixed
cyberpunk-detective fallback — two different hardcoded strings, neither
tone- nor ratio-conditioned. -/
theorem C8_suggest_fallback_amended (tone ratio tone' ratio' t : String)
    (outcome : TextOutcome) :
    suggestCreativePromptResult tone ratio .threw = cyberpunkDetectiveFallback ∧
      suggestCreativePromptResult tone ratio (.responded none) = floatingCityFallback ∧
      suggestCreativePromptResult tone ratio (.responded (some t)) =
        (if jsTrim t = "" then floatingCityFallback else jsTrim t) ∧
      suggestCreativePromptResult tone ratio outcome =
        suggestCreativePromptResult tone' ratio' outcome ∧
      cyberpunkDetectiveFallback ≠ floatingCityFallback :=
  ⟨rfl, rfl, rfl, rfl, by decide⟩

/-- C4 counterexample: with a present but EMPTY candidates list the guard
`response.candidates && ...` passes (an empty array is truthy in
JavaScript), `candidates[0]` is undefined, and reading `.content` raises a
TypeError — the call fails, but not with the "no image" error the claim
requires for every zero-candidate response. -/
theorem C4_response_scan_cex :
    extractImage ⟨some []⟩ = .error .typeErrorUndefined ∧
      Except.error GenError.typeErrorUndefined ≠
        (Except.error GenError.noImageData : Except GenError String) :=
  ⟨rfl, by simp⟩

/-- C4 (amended): the client scans the first candidate's parts in order and
returns the first inline payload wrapped in the fixed data-URL prefix (the
scan result is the head of the parts filtered to their inline payloads, so
an image carried only by the second part is returned); an ABSENT candidates
field, a missing parts list, or a scan without a hit fails with the
no-image error, while a present-but-empty candidates list fails with a
TypeError from indexing the missing first candidate. -/
theorem C4_response_scan_amended (ps : List RespPart) (rest : List RespCandidate) :
    extractImage ⟨none⟩ = .error .noImageData ∧
      extractImage ⟨some []⟩ = .error .typeErrorUndefined ∧
      extractImage ⟨some (⟨⟨none⟩⟩ :: rest)⟩ = .error .noImageData ∧
      extractImage ⟨some (⟨⟨some ps⟩⟩ :: rest)⟩ =
        (match (ps.filterMap imgPayload).head? with
          | some data => .ok ("data:image/png;base64," ++ data)
          | none => .error .noImageData) ∧
      extractImage ⟨some (⟨⟨some [⟨none⟩, ⟨some ⟨"XYZ"⟩⟩]⟩⟩ :: rest)⟩ =
        .ok "data:image/png;base64,XYZ" := by
  refine ⟨rfl, rfl, rfl, ?_, rfl⟩
  show (match findImagePart ps with
    | some data => Except.ok ("data:image/png;base64," ++ data)
    | none => Except.error GenError.noImageData) = _
  rw [findImagePart_eq_head_filterMap]

/-- C5: for every GenerationConfig the request text is
"{prompt}. Exclude: {negativePrompt}." when the negative prompt is present
and non-empty and "{prompt}. " otherwise; a present (truthy) reference
image is sent as an inline image part declared "image/png" preceding the
text part, with any data-URL header "data:image/<word-chars>;base64,"
stripped from its payload, and with no reference only the text part is
sent; the structural aspect-ratio parameter equals config.aspectRatio. -/
theorem C5_request_build (config : GenerationConfig) (np r : String)
    (sub payload : List Char) :
    ((buildImageRequest config).aspectRatio = config.aspectRatio) ∧
      (config.negativePrompt = some np → np ≠ "" →
        buildFullPrompt config = config.prompt ++ ". Exclude: " ++ np ++ ".") ∧
      (config.negativePrompt = none ∨ config.negativePrompt = some "" →
        buildFullPrompt config = config.prompt ++ ". ") ∧
      (config.referenceImage = some r → r ≠ "" →
        (buildImageRequest config).parts =
          [.inlineImage (stripDataHeader r) "image/png", .text (buildFullPrompt config)]) ∧
      ((config.referenceImage = none ∨ config.referenceImage = some "") →
        (buildImageRequest config).parts = [.text (buildFullPrompt config)]) ∧
      (sub ≠ [] → (∀ c ∈ sub, isWordChar c = true) →
        stripDataHeader (String.mk ("data:image/".data ++ sub ++ ";base64,".data ++ payload)) =
          String.mk payload) := by
  refine ⟨rfl, ?_, ?_, ?_, ?_, ?_⟩
  · intro hnp hne
    unfold buildFullPrompt
    rw [hnp]
    simp [hne]
    apply String.ext
    simp [String.data_append]
  · rintro (hnp | hnp) <;> rw [buildFullPrompt, hnp] <;> simp
  · intro href hne
    unfold buildImageRequest
    rw [href]
    simp [hne]
  · rintro (href | href) <;> rw [buildImageRequest, href] <;> simp
  · intro hne hword
    unfold stripDataHeader
    rw [show (String.mk ("data:image/".data ++ sub ++ ";base64,".data ++ payload)).data
          = "data:image/".data ++ sub ++ ";base64,".data ++ payload from rfl,
        stripChars_header sub payload hne hword]

/-- C5 witness: a concrete config with a non-empty negative prompt and a
PNG data-URL reference image produces the expected two-part request. -/
theorem C5_request_build_witness :
    (buildImageRequest ⟨"a dog", some "blur", "16:9", "none", some "data:image/png;base64,AAAA"⟩).aspectRatio
        = "16:9" ∧
      buildFullPrompt ⟨"a dog", some "blur", "16:9", "none", some "data:image/png;base64,AAAA"⟩
        = "a dog. Exclude: blur." ∧
      stripDataHeader "data:image/png;base64,AAAA" = "AAAA" ∧
      (buildImageRequest ⟨"a dog", some "blur", "16:9", "none", some "data:image/png;base64,AAAA"⟩).parts
        = [.inlineImage "AAAA" "image/png", .text "a dog. Exclude: blur."] := by
  have h := C5_request_build ⟨"a dog", some "blur", "16:9", "none", some "data:image/png;base64,AAAA"⟩
    "blur" "data:image/png;base64,AAAA" ("png".data) ("AAAA".data)
  have hfull : buildFullPrompt ⟨"a dog", some "blur", "16:9", "none", some "data:image/png;base64,AAAA"⟩
      = "a dog. Exclude: blur." :=
    (h.2.1 rfl (by decide)).trans (by decide)
  have hstrip : stripDataHeader "data:image/png;base64,AAAA" = "AAAA" := by
    have := h.2.2.2.2.2 (by decide) (by decide)
    exact this
  have hparts := h.2.2.2.1 rfl (by decide)
  exact ⟨h.1, hfull, hstrip, by rw [hparts, hfull, hstrip]⟩

/-- C10: the header regex only strips data-URL headers whose mime subtype
consists entirely of word characters: for EVERY reference image string of
the form "data:image/" ++ sub ++ ";base64," ++ payload whose subtype sub
(the segment before the semicolon, so it contains none) has at least one
non-word character — "data:image/svg+xml;base64," being the claim's
example — the string is forwarded to the generation request unmodified,
header included, while still being declared with mime type image/png. -/
theorem C10_header_not_stripped (sub rest : List Char) (p ar sid : String)
    (hsemi : ';' ∉ sub) (hnw : ∃ c ∈ sub, isWordChar c = false) :
    stripDataHeader (String.mk ("data:image/".data ++ sub ++ ";base64,".data ++ rest)) =
        String.mk ("data:image/".data ++ sub ++ ";base64,".data ++ rest) ∧
      (buildImageRequest ⟨p, none, ar, sid,
          some (String.mk ("data:image/".data ++ sub ++ ";base64,".data ++ rest))⟩).parts =
        [.inlineImage (String.mk ("data:image/".data ++ sub ++ ";base64,".data ++ rest)) "image/png",
          .text (p ++ ". ")] := by
  have hne : String.mk ("data:image/".data ++ sub ++ ";base64,".data ++ rest) ≠ "" := by
    intro hcontra
    have : "data:image/".data ++ sub ++ ";base64,".data ++ rest = [] :=
      congrArg String.data hcontra
    simp at this
  have hchars : stripChars ("data:image/".data ++ sub ++ ";base64,".data ++ rest)
      = "data:image/".data ++ sub ++ ";base64,".data ++ rest := by
    have hsplit : "data:image/".data ++ sub ++ ";base64,".data ++ rest
        = "data:image/".data ++ (sub ++ ';' :: ("base64,".data ++ rest)) := by
      simp [List.append_assoc]
    unfold stripChars
    rw [hsplit, dropLit_append]
    rcases htake : (sub ++ ';' :: ("base64,".data ++ rest)).takeWhile isWordChar with _ | ⟨y', w⟩
    · simp only [htake]
    · have hda : (sub ++ ';' :: ("base64,".data ++ rest)).dropWhile isWordChar
          = sub.dropWhile isWordChar ++ ';' :: ("base64,".data ++ rest) :=
        dropWhile_append_of_exists_not _ _ _ hnw
      obtain ⟨y, ys, hd, hpy, hmem⟩ := exists_head_dropWhile isWordChar sub hnw
      have hy : y ≠ ';' := fun hcontra => hsemi (hcontra ▸ hmem)
      have hnone : dropLit (";base64,".data)
          ((sub ++ ';' :: ("base64,".data ++ rest)).dropWhile isWordChar) = none := by
        rw [hda, hd, List.cons_append,
          show (";base64,").data = ';' :: "base64,".data from rfl]
        exact dropLit_ne_head _ _ hy
      simp only [htake, hnone]
  have hstrip : stripDataHeader (String.mk ("data:image/".data ++ sub ++ ";base64,".data ++ rest)) =
      String.mk ("data:image/".data ++ sub ++ ";base64,".data ++ rest) := by
    unfold stripDataHeader
    rw [show (String.mk ("data:image/".data ++ sub ++ ";base64,".data ++ rest)).data
          = "data:image/".data ++ sub ++ ";base64,".data ++ rest from rfl, hchars]
  refine ⟨hstrip, ?_⟩
  simp only [buildImageRequest, buildFullPrompt]
  rw [if_pos hne, hstrip]
  simp only [List.cons_append, List.nil_append, String.append_empty]

/-- C10 witness: the claim's own example — subtype "svg+xml", which has no
semicolon and contains the non-word character plus — with a concrete
payload: the full data-URL string is forwarded unmodified and declared
image/png. -/
theorem C10_header_not_stripped_witness :
    stripDataHeader "data:image/svg+xml;base64,AAAA" = "data:image/svg+xml;base64,AAAA" ∧
      (buildImageRequest ⟨"a dog", none, "1:1", "none",
          some "data:image/svg+xml;base64,AAAA"⟩).parts =
        [.inlineImage "data:image/svg+xml;base64,AAAA" "image/png", .text ("a dog" ++ ". ")] :=
  C10_header_not_stripped ("svg+xml".data) ("AAAA".data) "a dog" "1:1" "none"
    (by decide) (by decide)

/-- C1 counterexample: from a plain idle state (no prior error message) with
prompt "a cat", the generate action does NOT end in the success state on the
success path, nor in the error state on the failure path — the `finally`
block overwrites both with idle, because the error-message value it tests is
the one captured before the call. -/
theorem C1_final_state_cex :
    (handleGenerate ⟨"a cat", "", "1:1", "none", .default, none, .IDLE, none, [], none⟩
        (.ok "IMG") "id-1" 5).appState = .IDLE ∧
      (handleGenerate ⟨"a cat", "", "1:1", "none", .default, none, .IDLE, none, [], none⟩
        (.error ()) "id-1" 5).appState = .IDLE ∧
      AppState.IDLE ≠ .SUCCESS ∧ AppState.IDLE ≠ .ERROR := by
  decide

/-- C1 (amended): a guarded generate request moves the state to generating
and the try/catch then sets success on a successful payload and error (with
the user-facing message) on failure — that is the state just before the
`finally` block — but the `finally` block overwrites the final observed
state using the error message captured BEFORE the request: the action ends
in the error state when an error message was already displayed at request
time, and in the idle state otherwise, on the success and failure paths
alike. -/
theorem C1_final_state_amended (s : AppSt) (outcome : Except Unit String)
    (newId : String) (now : Nat) (h : generateGuardFails s = false) :
    ((handleGenerateBody s outcome newId now).appState =
        match outcome with
        | .ok _ => .SUCCESS
        | .error _ => .ERROR) ∧
      (handleGenerate s outcome newId now).appState =
        (if optTruthy s.errorMessage then .ERROR else .IDLE) := by
  constructor
  · cases outcome <;> rfl
  · unfold handleGenerate
    rw [h]
    by_cases ht : optTruthy s.errorMessage <;> simp [ht]

/-- C1 witness: the amended statement evaluated at a concrete idle state
with a successful outcome; the guard hypothesis holds and the final state is
idle while the pre-finally state was success. -/
theorem C1_final_state_witness :
    (handleGenerateBody ⟨"a cat", "", "1:1", "none", .default, none, .IDLE, none, [], none⟩
        (.ok "IMG") "id-1" 5).appState = .SUCCESS ∧
      (handleGenerate ⟨"a cat", "", "1:1", "none", .default, none, .IDLE, none, [], none⟩
        (.ok "IMG") "id-1" 5).appState = .IDLE := by
  have h := C1_final_state_amended
    ⟨"a cat", "", "1:1", "none", .default, none, .IDLE, none, [], none⟩
    (.ok "IMG") "id-1" 5 (by decide)
  exact ⟨h.1, h.2.trans (by decide)⟩

/-- C2: for every guarded generate request, a successful generation prepends
exactly one new GeneratedImage (fresh id, returned payload, the user-visible
prompt, timestamp, current aspect ratio) to the front of the history and
sets it as the current image (clearing the error message), while a failed
generation leaves the history and the current image unchanged and sets the
fixed error message. -/
theorem C2_history_effects (s : AppSt) (newId : String) (now : Nat) (b64 : String)
    (err : Unit) (h : generateGuardFails s = false) :
    (handleGenerate s (.ok b64) newId now).history
        = mkGeneratedImage newId b64 s now :: s.history ∧
      (handleGenerate s (.ok b64) newId now).currentImage
        = some (mkGeneratedImage newId b64 s now) ∧
      (handleGenerate s (.ok b64) newId now).errorMessage = none ∧
      (handleGenerate s (.error err) newId now).history = s.history ∧
      (handleGenerate s (.error err) newId now).currentImage = s.currentImage ∧
      (handleGenerate s (.error err) newId now).errorMessage = some generationFailedMessage := by
  unfold handleGenerate handleGenerateBody
  rw [h]
  by_cases ht : optTruthy s.errorMessage <;> simp [ht]

/-- C2 witness: the effects evaluated at a concrete idle state, on the
success and failure outcomes. -/
theorem C2_history_effects_witness :
    (handleGenerate ⟨"a cat", "", "1:1", "none", .default, none, .IDLE, none, [], none⟩
        (.ok "IMG") "id-1" 5).history = [⟨"id-1", "IMG", "a cat", 5, "1:1"⟩] ∧
      (handleGenerate ⟨"a cat", "", "1:1", "none", .default, none, .IDLE, none, [], none⟩
        (.error ()) "id-1" 5).history = [] ∧
      (handleGenerate ⟨"a cat", "", "1:1", "none", .default, none, .IDLE, none, [], none⟩
        (.error ()) "id-1" 5).errorMessage = some generationFailedMessage := by
  have h := C2_history_effects ⟨"a cat", "", "1:1", "none", .default, none, .IDLE, none, [], none⟩
    "id-1" 5 "IMG" () (by decide)
  exact ⟨h.1, h.2.2.2.1, h.2.2.2.2.2⟩

/-- C9: with an empty prompt and no reference image a generate request is a
silent no-op — the state is returned unchanged whatever the external
outcome would have been, so no call is consulted, no error is raised and no
field changes; conversely, whenever the guard lets generation proceed, the
prompt is non-empty or a reference image is present. -/
theorem C9_guard_noop (s : AppSt) (outcome : Except Unit String) (newId : String) (now : Nat) :
    (s.prompt = "" ∧ s.referenceImage = none → handleGenerate s outcome newId now = s) ∧
      (generateGuardFails s = false → s.prompt ≠ "" ∨ s.referenceImage ≠ none) := by
  constructor
  · rintro ⟨hp, hr⟩
    have hguard : generateGuardFails s = true := by
      unfold generateGuardFails
      rw [hp, hr]
      decide
    unfold handleGenerate
    simp [hguard]
  · intro h
    by_cases hp : s.prompt = ""
    · refine Or.inr fun hr => ?_
      have hguard : generateGuardFails s = true := by
        unfold generateGuardFails
        rw [hp, hr]
        decide
      rw [hguard] at h
      cases h
    · exact Or.inl hp

/-- C9 witness: a concrete state with an empty prompt and no reference image
is untouched by the generate action, on the success and failure outcomes
alike. -/
theorem C9_guard_noop_witness :
    handleGenerate ⟨"", "blur", "1:1", "cinematic", .luxury, none, .IDLE, none, [], none⟩
        (.ok "IMG") "id-1" 5
      = ⟨"", "blur", "1:1", "cinematic", .luxury, none, .IDLE, none, [], none⟩ ∧
      handleGenerate ⟨"", "blur", "1:1", "cinematic", .luxury, none, .IDLE, none, [], none⟩
        (.error ()) "id-1" 5
      = ⟨"", "blur", "1:1", "cinematic", .luxury, none, .IDLE, none, [], none⟩ :=
  ⟨(C9_guard_noop ⟨"", "blur", "1:1", "cinematic", .luxury, none, .IDLE, none, [], none⟩
      (.ok "IMG") "id-1" 5).1 ⟨rfl, rfl⟩,
    (C9_guard_noop ⟨"", "blur", "1:1", "cinematic", .luxury, none, .IDLE, none, [], none⟩
      (.error ()) "id-1" 5).1 ⟨rfl, rfl⟩⟩
